import Mathlib

/-!
Verification of the device-model integration layer of the lumper VMM
(`src/vmm/src/devices/mod.rs`): MMIO registration, the two-phase
activation protocol (`prepare_activate` / `finalize_activate`), and the
single-irqfd driver-notification path (`signal_used_queue`).

The Rust source is embedded shallowly: pure value construction becomes
Lean functions; side effects on the hypervisor (eventfd allocation,
ioeventfd/irqfd registration, event-manager subscription), the MMIO bus
and the kernel command line become explicit state passing.  Fallible
external calls are driven by an explicit failure oracle, since the
kernel may fail any of them.  Machine integers are `Nat` with explicit
`2^64` bounds where the source checks overflow.
-/

/-- Upper bound of the u64 address space. -/
def U64_MOD : Nat := 2 ^ 64

/-- Offset of the virtio-MMIO queue-notify register
(`VIRTIO_MMIO_QUEUE_NOTIFY_OFFSET` in the source, value `0x50`). -/
def VIRTIO_MMIO_QUEUE_NOTIFY_OFFSET : Nat := 0x50

/-- Model of the external `vm_device::bus::Error` values reachable from this
code: a zero-sized range, a range whose last address overflows `u64`, and a
registration conflicting with an already registered range. -/
inductive BusError where
  | ZeroSizedRange
  | InvalidRange
  | DeviceOverlap
deriving Repr, DecidableEq

/-- Model of the external `linux_loader::cmdline::Error` values reachable from
this code: the command line exceeding its capacity, and a zero MMIO size. -/
inductive CmdlineError where
  | TooLarge
  | MmioSize
deriving Repr, DecidableEq

/-- The crate's `Error` enum (`src/vmm/src/devices/mod.rs` lines 47-80).
Payloads carrying raw OS errors are dropped; the `Bus` and `Cmdline`
payloads are kept because the modelled collaborators produce them. -/
inductive Error where
  | Bus (e : BusError)
  | Overflow
  | OpenTun
  | IoctlError
  | Cmdline (e : CmdlineError)
  | EventFd
  | RegisterIoevent
  | RegisterIrqfd
  | QueuesNotValid
  | AlreadyActivated
  | Endpoint
deriving Repr, DecidableEq

/-- Model of the external `vm_device::bus::MmioRange`: a base address and a
size, both `u64`. -/
structure MmioRange where
  base : Nat
  size : Nat
deriving Repr, DecidableEq

/-- Model of the external `MmioRange::new`: fails on a zero-sized range and
when `base + (size - 1)` overflows the `u64` address space; otherwise returns
the validated range. -/
def MmioRange.new (base size : Nat) : Except BusError MmioRange :=
  if size = 0 then .error .ZeroSizedRange
  else if U64_MOD ≤ base + (size - 1) then .error .InvalidRange
  else .ok ⟨base, size⟩

/-- `MmioConfig` (source lines 82-90): a validated MMIO range paired with the
device's global system interrupt line. -/
structure MmioConfig where
  range : MmioRange
  gsi : Nat
deriving Repr, DecidableEq

/-- `MmioConfig::new` (source lines 93-97): builds the range via
`MmioRange::new`, mapping any bus-level failure to `Error::Bus`. -/
def MmioConfig.new (base size gsi : Nat) : Except Error MmioConfig :=
  match MmioRange.new base size with
  | .ok range => .ok { range := range, gsi := gsi }
  | .error e => .error (Error.Bus e)

/-- Abstraction of one virtio queue: only its validity against guest memory
matters to this layer (the check itself lives in the external
`virtio_device` crate). -/
structure Queue where
  valid : Bool
deriving Repr, DecidableEq

/-- Model of the external `virtio_device::VirtioConfig`: the queue list and
the `device_activated` flag, the only fields this layer reads or writes. -/
structure VirtioConfig where
  queues : List Queue
  device_activated : Bool
deriving Repr, DecidableEq

/-- Model of the external `VirtioConfig::queues_valid`: all queues are
individually valid. -/
def VirtioConfig.queues_valid (c : VirtioConfig) : Bool :=
  c.queues.all (fun q => q.valid)

/-- `CommonConfig` (source lines 160-167).  The `endpoint` and `vm_fd`
handles are represented by threading the shared system state explicitly;
`irqfd` is the descriptor id allocated at construction. -/
structure CommonConfig where
  virtio : VirtioConfig
  mmio : MmioConfig
  irqfd : Nat
deriving Repr, DecidableEq

/-- State owned by the external collaborators (hypervisor and event
manager): a fresh-descriptor counter, the registered ioeventfd doorbells as
`(fd, address, datamatch)` triples in registration order, and the handlers
registered with the event manager. -/
structure SysState where
  nextFd : Nat
  ioevents : List (Nat × Nat × Nat)
  handlers : List Nat
deriving Repr, DecidableEq

/-- Failure oracle for the fallible external calls: whether allocating the
eventfd with a given id fails, whether registering the ioeventfd backed by a
given fd id fails, and whether the blocking endpoint call fails. -/
structure Oracle where
  eventfdFails : Nat → Bool
  ioeventFails : Nat → Bool
  endpointFails : Bool

/-- Model of the external `EventFd::new(EFD_NONBLOCK)`: allocates a fresh
descriptor id, or fails according to the oracle. -/
def EventFd.new (o : Oracle) (s : SysState) : Option (Nat × SysState) :=
  if o.eventfdFails s.nextFd then none
  else some (s.nextFd, { s with nextFd := s.nextFd + 1 })

/-- Model of the external `VmFd::register_ioevent`: records the doorbell
binding `(fd, addr, datamatch)` with the hypervisor, or fails according to
the oracle. -/
def VmFd.register_ioevent (o : Oracle) (s : SysState) (fd addr datamatch : Nat) :
    Option SysState :=
  if o.ioeventFails fd then none
  else some { s with ioevents := s.ioevents ++ [(fd, addr, datamatch)] }

/-- The `for i in 0..queues.len()` loop of `prepare_activate` (source lines
203-222), as structural recursion on the remaining iteration count: each
iteration allocates an eventfd (failure mapped to `Error::EventFd`) and
registers it as an ioeventfd doorbell (failure mapped to
`Error::RegisterIoevent`, with the error state returned as-is: no cleanup). -/
def prepareLoop (o : Oracle) (addr : Nat) :
    Nat → Nat → SysState → List Nat → Except Error (List Nat) × SysState
  | 0, _, s, acc => (.ok acc, s)
  | k + 1, i, s, acc =>
    match EventFd.new o s with
    | none => (.error .EventFd, s)
    | some (fd, s1) =>
      match VmFd.register_ioevent o s1 fd addr i with
      | none => (.error .RegisterIoevent, s1)
      | some s2 => prepareLoop o addr k (i + 1) s2 (acc ++ [fd])

/-- `CommonConfig::prepare_activate` (source lines 189-225): rejects invalid
queues, then an already activated device, then runs the per-queue doorbell
loop at address `mmio_base + VIRTIO_MMIO_QUEUE_NOTIFY_OFFSET` with datamatch
`i`.  Takes `&self`: the configuration itself is never mutated, so only the
system state is threaded. -/
def CommonConfig.prepare_activate (o : Oracle) (cfg : CommonConfig) (s : SysState) :
    Except Error (List Nat) × SysState :=
  if !cfg.virtio.queues_valid then (.error .QueuesNotValid, s)
  else if cfg.virtio.device_activated then (.error .AlreadyActivated, s)
  else
    prepareLoop o (cfg.mmio.range.base + VIRTIO_MMIO_QUEUE_NOTIFY_OFFSET)
      cfg.virtio.queues.length 0 s []

/-- `CommonConfig::finalize_activate` (source lines 230-244): a blocking call
into the event-manager thread registers the handler (`add_subscriber`); on
failure `Error::Endpoint` is returned and nothing changes; on success the
handler is subscribed and only then is `device_activated` set.  Note the
source performs no `device_activated` check here. -/
def CommonConfig.finalize_activate (o : Oracle) (cfg : CommonConfig)
    (handler : Nat) (s : SysState) : Except Error Unit × CommonConfig × SysState :=
  if o.endpointFails then (.error .Endpoint, cfg, s)
  else
    (.ok (),
     { cfg with virtio := { cfg.virtio with device_activated := true } },
     { s with handlers := s.handlers ++ [handler] })

/-- State of the MMIO bus manager (external `vm_device` `IoManager`): the
registered devices, each a range paired with an opaque device id. -/
structure BusState where
  devices : List (MmioRange × Nat)
deriving Repr, DecidableEq

/-- Two MMIO ranges overlap when their closed address intervals intersect. -/
def MmioRange.overlaps (a b : MmioRange) : Bool :=
  a.base ≤ b.base + (b.size - 1) && b.base ≤ a.base + (a.size - 1)

/-- Model of the external `MmioManager::register_mmio`: rejects a range
overlapping an already registered one, otherwise records the device. -/
def BusState.register_mmio (bus : BusState) (r : MmioRange) (dev : Nat) :
    Except BusError BusState :=
  if bus.devices.any (fun p => p.1.overlaps r) then .error .DeviceOverlap
  else .ok { devices := bus.devices ++ [(r, dev)] }

/-- Model of the external `linux_loader::cmdline::Cmdline`: accumulated
content plus the capacity fixed at construction. -/
structure Cmdline where
  content : String
  capacity : Nat
deriving Repr, DecidableEq

/-- Model of the external `Cmdline::insert_str`: appends the string,
separated from existing content by a single space, failing when the result
exceeds the capacity. -/
def Cmdline.insert_str (c : Cmdline) (t : String) : Except CmdlineError Cmdline :=
  let newContent := if c.content.isEmpty then t else c.content ++ " " ++ t
  if c.capacity < newContent.length then .error .TooLarge
  else .ok { c with content := newContent }

/-- Lowercase hexadecimal rendering of a natural number, as Rust's
format specifier x produces. -/
def natToHex (n : Nat) : String :=
  String.mk (Nat.toDigits 16 n)

/-- The virtio-MMIO discovery fragment, bit-exact per the external
command-line builder: the size in KiB with a K suffix, the base in lowercase
hex with an 0x prefix, and the interrupt line in decimal. -/
def virtioMmioFragment (size base gsi : Nat) : String :=
  "virtio_mmio.device=" ++ Nat.repr (size / 1024) ++ "K@0x" ++ natToHex base
    ++ ":" ++ Nat.repr gsi

/-- Model of the external `Cmdline::add_virtio_mmio_device` (with no device
id, as the source passes `None`): rejects a zero size, then inserts the
discovery fragment. -/
def Cmdline.add_virtio_mmio_device (c : Cmdline) (size base gsi : Nat) :
    Except CmdlineError Cmdline :=
  if size = 0 then .error .MmioSize
  else c.insert_str (virtioMmioFragment size base gsi)

/-- `Env` (source lines 104-122), restricted to the fields
`register_mmio_device` and `insert_cmdline_str` touch: the bus manager, the
MMIO configuration and the kernel command line. -/
structure Env where
  mmio_mgr : BusState
  mmio_cfg : MmioConfig
  kernel_cmdline : Cmdline
deriving Repr, DecidableEq

/-- `Env::register_mmio_device` (source lines 132-150): registers the device
on the bus under the context's range (failure mapped to `Error::Bus`), then
appends the virtio-MMIO discovery fragment for the same range and interrupt
line (failure mapped to `Error::Cmdline`); the bus registration is not
rolled back when the append fails. -/
def Env.register_mmio_device (env : Env) (device : Nat) : Except Error Unit × Env :=
  match env.mmio_mgr.register_mmio env.mmio_cfg.range device with
  | .error e => (.error (.Bus e), env)
  | .ok mgr1 =>
    let env1 := { env with mmio_mgr := mgr1 }
    match env1.kernel_cmdline.add_virtio_mmio_device env.mmio_cfg.range.size
        env.mmio_cfg.range.base env.mmio_cfg.gsi with
    | .error e => (.error (.Cmdline e), env1)
    | .ok cl => (.ok (), { env1 with kernel_cmdline := cl })

/-- `Env::insert_cmdline_str` (source lines 153-157): appends a string to the
kernel command line, mapping the builder's failure to `Error::Cmdline`. -/
def Env.insert_cmdline_str (env : Env) (t : String) : Except Error Unit × Env :=
  match env.kernel_cmdline.insert_str t with
  | .error e => (.error (.Cmdline e), env)
  | .ok cl => (.ok (), { env with kernel_cmdline := cl })

/-- Observable state behind a `SingleFdSignalQueue` (source lines 256-259):
the value of the shared `AtomicU8` interrupt-status register and the counter
of the shared irqfd. -/
structure SingleFdSignalQueue where
  interrupt_status : Nat
  irqfd : Nat
deriving Repr, DecidableEq

/-- `SingleFdSignalQueue::signal_used_queue` (source lines 262-269): ignores
the queue index, atomically ORs `0x01` into the interrupt-status register,
then writes 1 to the irqfd (incrementing its counter).  A failed irqfd write
aborts the process in the source and is not modelled as a result. -/
def SingleFdSignalQueue.signal_used_queue (q : SingleFdSignalQueue) (_index : Nat) :
    SingleFdSignalQueue :=
  { interrupt_status := q.interrupt_status ||| 0x01,
    irqfd := q.irqfd + 1 }

/-- All-success failure oracle: every external call succeeds. -/
def oracleOk : Oracle := ⟨fun _ => false, fun _ => false, false⟩

/-- Oracle under which every eventfd allocation fails. -/
def oracleEfdFail : Oracle := ⟨fun _ => true, fun _ => false, false⟩

/-- An initial system state with one descriptor (the irqfd) already allocated. -/
def s0 : SysState := ⟨1, [], []⟩

/-- The MMIO configuration of the source's own test scaffolding: range base
`0x1_0000_0000`, size `0x1000`, interrupt line 5. -/
def mmioC : MmioConfig := ⟨⟨0x100000000, 0x1000⟩, 5⟩

/-- A configuration with one valid queue that is already activated. -/
def cfgActive : CommonConfig := ⟨⟨[⟨true⟩], true⟩, mmioC, 0⟩

/-- A configuration with two valid queues, not yet activated. -/
def cfgReady2 : CommonConfig := ⟨⟨[⟨true⟩, ⟨true⟩], false⟩, mmioC, 0⟩

/-- A configuration whose queue is invalid and that is already activated. -/
def cfgInvalid : CommonConfig := ⟨⟨[⟨false⟩], true⟩, mmioC, 0⟩

/-- An environment whose command line has zero capacity, so any append fails. -/
def envLowCap : Env := ⟨⟨[]⟩, mmioC, ⟨"", 0⟩⟩

/-- An environment with an empty bus and an empty command line of ample capacity. -/
def env9 : Env := ⟨⟨[]⟩, mmioC, ⟨"", 4096⟩⟩

/-- The environment state produced by registering device 3 in `env9`. -/
def env9Out : Env :=
  ⟨⟨[(mmioC.range, 3)]⟩, mmioC, ⟨"virtio_mmio.device=4K@0x100000000:5", 4096⟩⟩

/-- Auxiliary: mapping over `List.range (k + 1)` peels off the head. -/
lemma range_succ_map {α : Type} (f : Nat → α) (k : Nat) :
    (List.range (k + 1)).map f = f 0 :: (List.range k).map (fun j => f (j + 1)) := by
  rw [List.range_succ_eq_map, List.map_cons, List.map_map]
  rfl

/-- Auxiliary: when no external call fails, the `prepare_activate` loop starting
at queue index `i` with `k` iterations left allocates `k` fresh descriptors and
registers each at the doorbell address with the matching queue index. -/
lemma prepareLoop_success (o : Oracle) (addr : Nat)
    (hE : ∀ fd, o.eventfdFails fd = false)
    (hI : ∀ fd, o.ioeventFails fd = false) :
    ∀ (k i : Nat) (s : SysState) (acc : List Nat),
    prepareLoop o addr k i s acc =
      (.ok (acc ++ (List.range k).map (fun j => s.nextFd + j)),
       { s with nextFd := s.nextFd + k,
                ioevents := s.ioevents ++
                  (List.range k).map (fun j => (s.nextFd + j, addr, i + j)) }) := by
  intro k
  induction k with
  | zero =>
    intro i s acc
    simp [prepareLoop]
  | succ k ih =>
    intro i s acc
    simp only [prepareLoop, EventFd.new, VmFd.register_ioevent, hE, hI,
      Bool.false_eq_true, if_false]
    rw [ih]
    have h1 : (fun j => s.nextFd + (j + 1)) = (fun j => s.nextFd + 1 + j) := by
      funext j; omega
    have h2 : (fun j => ((s.nextFd + (j + 1) : Nat), addr, i + (j + 1))) =
        (fun j => ((s.nextFd + 1 + j : Nat), addr, i + 1 + j)) := by
      funext j
      have ha : s.nextFd + (j + 1) = s.nextFd + 1 + j := by omega
      have hb : i + (j + 1) = i + 1 + j := by omega
      rw [ha, hb]
    simp only [range_succ_map, h1, h2, Prod.mk.injEq, Except.ok.injEq, SysState.mk.injEq]
    refine ⟨by simp, by omega, by simp, trivial⟩

/-- Auxiliary: when the doorbell registration of relative iteration `m` fails
and everything before it succeeds, the loop stops with `RegisterIoevent`,
keeping the `m` earlier registrations and the `m + 1` allocated descriptors. -/
lemma prepareLoop_regFail (o : Oracle) (addr : Nat)
    (hE : ∀ fd, o.eventfdFails fd = false) :
    ∀ (m k i : Nat) (s : SysState) (acc : List Nat),
    m < k →
    (∀ j, j < m → o.ioeventFails (s.nextFd + j) = false) →
    o.ioeventFails (s.nextFd + m) = true →
    prepareLoop o addr k i s acc =
      (.error .RegisterIoevent,
       { s with nextFd := s.nextFd + m + 1,
                ioevents := s.ioevents ++
                  (List.range m).map (fun j => (s.nextFd + j, addr, i + j)) }) := by
  intro m
  induction m with
  | zero =>
    intro k i s acc hmk hok hbad
    obtain ⟨k', rfl⟩ : ∃ k', k = k' + 1 := ⟨k - 1, by omega⟩
    simp only [prepareLoop, EventFd.new, hE, Bool.false_eq_true, if_false,
      VmFd.register_ioevent]
    rw [Nat.add_zero] at hbad
    simp [hbad]
  | succ m ih =>
    intro k i s acc hmk hok hbad
    obtain ⟨k', rfl⟩ : ∃ k', k = k' + 1 := ⟨k - 1, by omega⟩
    have h0 : o.ioeventFails (s.nextFd + 0) = false := hok 0 (Nat.succ_pos m)
    rw [Nat.add_zero] at h0
    simp only [prepareLoop, EventFd.new, hE, Bool.false_eq_true, if_false,
      VmFd.register_ioevent, h0]
    rw [ih k' (i + 1) _ (acc ++ [s.nextFd]) (by omega)
      (fun j hj => by
        have := hok (j + 1) (by omega)
        simpa [Nat.add_assoc, Nat.add_comm 1 j] using this)
      (by simpa [Nat.add_assoc, Nat.add_comm 1 m] using hbad)]
    have h2 : (fun j => ((s.nextFd + (j + 1) : Nat), addr, i + (j + 1))) =
        (fun j => ((s.nextFd + 1 + j : Nat), addr, i + 1 + j)) := by
      funext j
      have ha : s.nextFd + (j + 1) = s.nextFd + 1 + j := by omega
      have hb : i + (j + 1) = i + 1 + j := by omega
      rw [ha, hb]
    simp only [range_succ_map, h2, Prod.mk.injEq, SysState.mk.injEq]
    refine ⟨trivial, by omega, by simp, trivial⟩

/-- C1 (amended): after successful activation, a second `prepare_activate`
returns `AlreadyActivated` with the system state untouched (no descriptor
allocation, no doorbell registration); `finalize_activate` however performs no
activation check: a second call re-registers the handler with the event
subsystem and returns `Ok` whenever the endpoint call succeeds, and returns
`Endpoint` when it fails. -/
theorem C1_after_activation (o : Oracle) (cfg : CommonConfig) (s : SysState) (h : Nat)
    (hq : cfg.virtio.queues_valid = true)
    (hact : cfg.virtio.device_activated = true) :
    CommonConfig.prepare_activate o cfg s = (.error .AlreadyActivated, s) ∧
    (o.endpointFails = false →
      CommonConfig.finalize_activate o cfg h s =
        (.ok (), { cfg with virtio := { cfg.virtio with device_activated := true } },
         { s with handlers := s.handlers ++ [h] })) ∧
    (o.endpointFails = true →
      CommonConfig.finalize_activate o cfg h s = (.error .Endpoint, cfg, s)) := by
  refine ⟨by simp [CommonConfig.prepare_activate, hq, hact], ?_, ?_⟩
  · intro he
    simp [CommonConfig.finalize_activate, he]
  · intro he
    simp [CommonConfig.finalize_activate, he]

/-- C1 witness: the amended claim instantiated on a concrete activated
configuration. -/
theorem C1_witness :
    cfgActive.virtio.queues_valid = true ∧
    cfgActive.virtio.device_activated = true ∧
    (CommonConfig.prepare_activate oracleOk cfgActive s0 =
      (.error .AlreadyActivated, s0) ∧
    (oracleOk.endpointFails = false →
      CommonConfig.finalize_activate oracleOk cfgActive 7 s0 =
        (.ok (),
         { cfgActive with virtio :=
            { cfgActive.virtio with device_activated := true } },
         { s0 with handlers := s0.handlers ++ [7] })) ∧
    (oracleOk.endpointFails = true →
      CommonConfig.finalize_activate oracleOk cfgActive 7 s0 =
        (.error .Endpoint, cfgActive, s0))) :=
  ⟨by decide, by decide,
   C1_after_activation oracleOk cfgActive s0 7 (by decide) (by decide)⟩

/-- C1 counterexample: on an activated configuration, the second
`finalize_activate` does not return `AlreadyActivated` as the claim states; it
succeeds and registers one more handler. -/
theorem C1_counterexample :
    cfgActive.virtio.device_activated = true ∧
    (CommonConfig.finalize_activate oracleOk cfgActive 7 s0).1 ≠
      .error Error.AlreadyActivated ∧
    (CommonConfig.finalize_activate oracleOk cfgActive 7 s0).2.2.handlers =
      s0.handlers ++ [7] :=
  ⟨rfl, fun hcontra => Except.noConfusion hcontra, rfl⟩

/-- C2: on a configuration with `N` valid queues and `activated` still false,
`prepare_activate` (with all external calls succeeding) returns `Ok` with
exactly `N` descriptors, and the `i`-th returned descriptor is registered with
the virtualized machine as a doorbell at `mmio_base + 0x50` qualified by the
value `i`, so the list is index-aligned with the queue indices. -/
theorem C2_prepare_activate_doorbells (o : Oracle) (cfg : CommonConfig) (s : SysState)
    (hq : cfg.virtio.queues_valid = true)
    (hact : cfg.virtio.device_activated = false)
    (hE : ∀ fd, o.eventfdFails fd = false)
    (hI : ∀ fd, o.ioeventFails fd = false) :
    ∃ fds s',
      CommonConfig.prepare_activate o cfg s = (.ok fds, s') ∧
      fds.length = cfg.virtio.queues.length ∧
      ∀ i (hi : i < fds.length),
        (fds.get ⟨i, hi⟩,
         cfg.mmio.range.base + VIRTIO_MMIO_QUEUE_NOTIFY_OFFSET, i) ∈ s'.ioevents := by
  refine ⟨(List.range cfg.virtio.queues.length).map (fun j => s.nextFd + j),
    { s with nextFd := s.nextFd + cfg.virtio.queues.length,
             ioevents := s.ioevents ++
               (List.range cfg.virtio.queues.length).map
                 (fun j => ((s.nextFd + j : Nat),
                   cfg.mmio.range.base + VIRTIO_MMIO_QUEUE_NOTIFY_OFFSET, 0 + j)) },
    ?_, ?_, ?_⟩
  · simp only [CommonConfig.prepare_activate, hq, hact, Bool.not_true,
      Bool.false_eq_true, if_false]
    rw [prepareLoop_success o _ hE hI cfg.virtio.queues.length 0 s []]
    simp
  · simp
  · intro i hi
    simp only [List.length_map, List.length_range] at hi
    have hget : ((List.range cfg.virtio.queues.length).map
        (fun j => s.nextFd + j)).get ⟨i, by simpa using hi⟩ = s.nextFd + i := by
      simp
    rw [hget]
    have : ((s.nextFd + i : Nat),
        cfg.mmio.range.base + VIRTIO_MMIO_QUEUE_NOTIFY_OFFSET, i) ∈
        (List.range cfg.virtio.queues.length).map
          (fun j => ((s.nextFd + j : Nat),
            cfg.mmio.range.base + VIRTIO_MMIO_QUEUE_NOTIFY_OFFSET, 0 + j)) := by
      refine List.mem_map.mpr ⟨i, ?_, ?_⟩
      · simpa using hi
      · simp
    simpa using List.mem_append_right _ this

/-- C2 witness: the claim instantiated on a concrete two-queue
configuration. -/
theorem C2_witness :
    cfgReady2.virtio.queues_valid = true ∧
    cfgReady2.virtio.device_activated = false ∧
    (∃ fds s',
      CommonConfig.prepare_activate oracleOk cfgReady2 s0 = (.ok fds, s') ∧
      fds.length = cfgReady2.virtio.queues.length ∧
      ∀ i (hi : i < fds.length),
        (fds.get ⟨i, hi⟩,
         cfgReady2.mmio.range.base + VIRTIO_MMIO_QUEUE_NOTIFY_OFFSET, i) ∈
          s'.ioevents) :=
  ⟨by decide, by decide,
   C2_prepare_activate_doorbells oracleOk cfgReady2 s0 (by decide) (by decide)
     (fun _ => rfl) (fun _ => rfl)⟩

/-- C3: `finalize_activate` flips the activated flag only together with a
completed handler registration; when the cross-thread call fails it returns
the `Endpoint` error and both the configuration (hence the `activated` flag)
and the system state are unchanged. -/
theorem C3_finalize_activate (o : Oracle) (cfg : CommonConfig) (h : Nat) (s : SysState) :
    (o.endpointFails = true →
      CommonConfig.finalize_activate o cfg h s = (.error .Endpoint, cfg, s)) ∧
    (∀ e cfg' s', CommonConfig.finalize_activate o cfg h s = (.error e, cfg', s') →
      e = .Endpoint ∧ cfg' = cfg ∧ s' = s) ∧
    (∀ cfg' s', CommonConfig.finalize_activate o cfg h s = (.ok (), cfg', s') →
      cfg'.virtio.device_activated = true ∧ s'.handlers = s.handlers ++ [h]) := by
  unfold CommonConfig.finalize_activate
  by_cases he : o.endpointFails
  · simp [he]
  · simp [he]

/-- C3 witness: the claim instantiated with an oracle whose endpoint call
fails. -/
theorem C3_witness :
    ((Oracle.mk (fun _ => false) (fun _ => false) true).endpointFails = true →
      CommonConfig.finalize_activate (Oracle.mk (fun _ => false) (fun _ => false) true)
        cfgReady2 7 s0 = (.error .Endpoint, cfgReady2, s0)) ∧
    (∀ e cfg' s',
      CommonConfig.finalize_activate (Oracle.mk (fun _ => false) (fun _ => false) true)
        cfgReady2 7 s0 = (.error e, cfg', s') →
      e = .Endpoint ∧ cfg' = cfgReady2 ∧ s' = s0) ∧
    (∀ cfg' s',
      CommonConfig.finalize_activate (Oracle.mk (fun _ => false) (fun _ => false) true)
        cfgReady2 7 s0 = (.ok (), cfg', s') →
      cfg'.virtio.device_activated = true ∧ s'.handlers = s0.handlers ++ [7]) :=
  C3_finalize_activate (Oracle.mk (fun _ => false) (fun _ => false) true) cfgReady2 7 s0

/-- C4: on a configuration whose queues are not valid, `prepare_activate`
returns `QueuesNotValid` with the system state untouched (zero descriptor
allocations, zero hypervisor registrations), regardless of the activated
flag: the validity check precedes the activated-flag check. -/
theorem C4_queues_not_valid (o : Oracle) (cfg : CommonConfig) (s : SysState)
    (hq : cfg.virtio.queues_valid = false) :
    CommonConfig.prepare_activate o cfg s = (.error .QueuesNotValid, s) := by
  simp [CommonConfig.prepare_activate, hq]

/-- C4 witness: the claim instantiated on a configuration that is both
invalid and already activated, confirming the check order. -/
theorem C4_witness :
    cfgInvalid.virtio.queues_valid = false ∧
    cfgInvalid.virtio.device_activated = true ∧
    CommonConfig.prepare_activate oracleOk cfgInvalid s0 =
      (.error .QueuesNotValid, s0) :=
  ⟨by decide, by decide, C4_queues_not_valid oracleOk cfgInvalid s0 (by decide)⟩

/-- C5 (amended): when the doorbell registration of some iteration of the
per-queue loop fails, `prepare_activate` returns `RegisterIoevent` and performs
no cleanup: the descriptors allocated and registered by the earlier iterations
persist in the hypervisor state (a descriptor-allocation failure instead
surfaces as the `EventFd` error). -/
theorem C5_register_failure_no_cleanup (o : Oracle) (cfg : CommonConfig)
    (s : SysState) (m : Nat)
    (hq : cfg.virtio.queues_valid = true)
    (hact : cfg.virtio.device_activated = false)
    (hE : ∀ fd, o.eventfdFails fd = false)
    (hok : ∀ j, j < m → o.ioeventFails (s.nextFd + j) = false)
    (hbad : o.ioeventFails (s.nextFd + m) = true)
    (hm : m < cfg.virtio.queues.length) :
    CommonConfig.prepare_activate o cfg s =
      (.error .RegisterIoevent,
       { s with nextFd := s.nextFd + m + 1,
                ioevents := s.ioevents ++
                  (List.range m).map (fun j => ((s.nextFd + j : Nat),
                    cfg.mmio.range.base + VIRTIO_MMIO_QUEUE_NOTIFY_OFFSET, j)) }) := by
  simp only [CommonConfig.prepare_activate, hq, hact, Bool.not_true,
    Bool.false_eq_true, if_false]
  rw [prepareLoop_regFail o _ hE m cfg.virtio.queues.length 0 s [] hm hok hbad]
  simp

/-- C5 witness: the amended claim instantiated with a failure on the second
queue's registration; the first queue's registration persists. -/
theorem C5_witness :
    cfgReady2.virtio.queues_valid = true ∧
    cfgReady2.virtio.device_activated = false ∧
    (∀ j, j < 1 → (Oracle.mk (fun _ => false) (fun fd => decide (fd = 2)) false).ioeventFails
      (s0.nextFd + j) = false) ∧
    (Oracle.mk (fun _ => false) (fun fd => decide (fd = 2)) false).ioeventFails
      (s0.nextFd + 1) = true ∧
    CommonConfig.prepare_activate
        (Oracle.mk (fun _ => false) (fun fd => decide (fd = 2)) false) cfgReady2 s0 =
      (.error .RegisterIoevent,
       { s0 with nextFd := s0.nextFd + 1 + 1,
                 ioevents := s0.ioevents ++
                   (List.range 1).map (fun j => ((s0.nextFd + j : Nat),
                     cfgReady2.mmio.range.base + VIRTIO_MMIO_QUEUE_NOTIFY_OFFSET, j)) }) :=
  ⟨by decide, by decide, by decide, by decide,
   C5_register_failure_no_cleanup
     (Oracle.mk (fun _ => false) (fun fd => decide (fd = 2)) false) cfgReady2 s0 1
     (by decide) (by decide) (fun _ => rfl)
     (by intro j hj; interval_cases j; decide) (by decide) (by decide)⟩

/-- C5 counterexample: an iteration of the loop can also fail in the
descriptor allocation itself, in which case the call returns `EventFd`, not
`RegisterIoevent` as the claim states. -/
theorem C5_counterexample :
    cfgReady2.virtio.queues_valid = true ∧
    cfgReady2.virtio.device_activated = false ∧
    CommonConfig.prepare_activate oracleEfdFail cfgReady2 s0 =
      (.error Error.EventFd, s0) ∧
    Error.EventFd ≠ Error.RegisterIoevent := by
  refine ⟨by decide, by decide, rfl, by decide⟩

/-- C6 (amended): `MmioConfig::new` maps every range-validation failure —
including an overflowing range computation — to the `Bus` error; the
`Overflow` variant is never returned by this constructor.  On success it
pairs the validated range with the given interrupt line. -/
theorem C6_mmio_config_new (base size gsi : Nat) :
    (∀ e, MmioRange.new base size = .error e →
      MmioConfig.new base size gsi = .error (Error.Bus e)) ∧
    (∀ r, MmioRange.new base size = .ok r →
      MmioConfig.new base size gsi = .ok { range := r, gsi := gsi }) ∧
    MmioConfig.new base size gsi ≠ .error Error.Overflow := by
  unfold MmioConfig.new
  refine ⟨?_, ?_, ?_⟩
  · intro e he
    rw [he]
  · intro r hr
    rw [hr]
  · intro hcontra
    cases hmr : MmioRange.new base size with
    | ok r => rw [hmr] at hcontra; exact Except.noConfusion hcontra
    | error e =>
      rw [hmr] at hcontra
      have : Error.Bus e = Error.Overflow := by
        injection hcontra
      exact Error.noConfusion this

/-- C6 witness: the amended claim instantiated at a well-formed range. -/
theorem C6_witness :
    (∀ e, MmioRange.new 0x1000 0x1000 = .error e →
      MmioConfig.new 0x1000 0x1000 5 = .error (Error.Bus e)) ∧
    (∀ r, MmioRange.new 0x1000 0x1000 = .ok r →
      MmioConfig.new 0x1000 0x1000 5 = .ok { range := r, gsi := 5 }) ∧
    MmioConfig.new 0x1000 0x1000 5 ≠ .error Error.Overflow :=
  C6_mmio_config_new 0x1000 0x1000 5

/-- C6 counterexample: at a base/size whose range computation overflows the
address space, the constructor returns `Bus`, not `Overflow` as the claim
states. -/
theorem C6_counterexample :
    U64_MOD ≤ (U64_MOD - 1) + (2 - 1) ∧
    MmioConfig.new (U64_MOD - 1) 2 5 = .error (Error.Bus BusError.InvalidRange) ∧
    MmioConfig.new (U64_MOD - 1) 2 5 ≠ .error Error.Overflow := by
  refine ⟨by decide, rfl, fun hcontra => ?_⟩
  have : Error.Bus BusError.InvalidRange = Error.Overflow := by
    have h2 : MmioConfig.new (U64_MOD - 1) 2 5 =
        .error (Error.Bus BusError.InvalidRange) := rfl
    rw [h2] at hcontra
    injection hcontra
  exact Error.noConfusion this

/-- C7: `register_mmio_device` performs the bus registration before the
command-line append, and when the append fails after a successful bus
registration the registration is not rolled back: the device is still present
on the bus under the context's range while the `Cmdline` error is returned. -/
theorem C7_no_rollback_on_cmdline_failure (env : Env) (dev : Nat) :
    (∀ e, env.mmio_mgr.register_mmio env.mmio_cfg.range dev = .error e →
      Env.register_mmio_device env dev = (.error (.Bus e), env)) ∧
    (∀ mgr1 e, env.mmio_mgr.register_mmio env.mmio_cfg.range dev = .ok mgr1 →
      env.kernel_cmdline.add_virtio_mmio_device env.mmio_cfg.range.size
        env.mmio_cfg.range.base env.mmio_cfg.gsi = .error e →
      Env.register_mmio_device env dev =
        (.error (.Cmdline e), { env with mmio_mgr := mgr1 }) ∧
      (env.mmio_cfg.range, dev) ∈ mgr1.devices) := by
  constructor
  · intro e he
    unfold Env.register_mmio_device
    rw [he]
  · intro mgr1 e hbus hcl
    constructor
    · unfold Env.register_mmio_device
      rw [hbus]
      simp only []
      rw [hcl]
    · unfold BusState.register_mmio at hbus
      by_cases hov : env.mmio_mgr.devices.any (fun p => p.1.overlaps env.mmio_cfg.range)
      · rw [if_pos hov] at hbus
        exact Except.noConfusion hbus
      · rw [if_neg hov] at hbus
        have : ({ devices := env.mmio_mgr.devices ++ [(env.mmio_cfg.range, dev)] } :
            BusState) = mgr1 := by
          injection hbus
        rw [← this]
        simp

/-- C7 witness: with a zero-capacity command line the append fails, yet the
device remains registered on the bus. -/
theorem C7_witness :
    envLowCap.mmio_mgr.register_mmio envLowCap.mmio_cfg.range 3 =
      .ok ⟨[(envLowCap.mmio_cfg.range, 3)]⟩ ∧
    envLowCap.kernel_cmdline.add_virtio_mmio_device envLowCap.mmio_cfg.range.size
      envLowCap.mmio_cfg.range.base envLowCap.mmio_cfg.gsi =
      .error CmdlineError.TooLarge ∧
    (Env.register_mmio_device envLowCap 3 =
      (.error (.Cmdline CmdlineError.TooLarge),
       { envLowCap with mmio_mgr := ⟨[(envLowCap.mmio_cfg.range, 3)]⟩ }) ∧
    (envLowCap.mmio_cfg.range, 3) ∈
      (BusState.mk [(envLowCap.mmio_cfg.range, 3)]).devices) :=
  ⟨rfl, rfl,
   (C7_no_rollback_on_cmdline_failure envLowCap 3).2 ⟨[(envLowCap.mmio_cfg.range, 3)]⟩
     CmdlineError.TooLarge rfl rfl⟩

/-- C8: `signal_used_queue` ignores its queue-index argument, sets bit 0 of
the shared interrupt-status register by an OR, and increments the shared
notification descriptor by exactly one; two calls in sequence leave bit 0 set
after both while the descriptor receives exactly one increment per call. -/
theorem C8_signal_used_queue_shape (q : SingleFdSignalQueue) (i j : Nat) :
    q.signal_used_queue i = q.signal_used_queue j ∧
    Nat.testBit (q.signal_used_queue i).interrupt_status 0 = true ∧
    Nat.testBit ((q.signal_used_queue i).signal_used_queue j).interrupt_status 0 = true ∧
    (q.signal_used_queue i).irqfd = q.irqfd + 1 ∧
    ((q.signal_used_queue i).signal_used_queue j).irqfd = q.irqfd + 2 := by
  refine ⟨rfl, ?_, ?_, rfl, rfl⟩
  · simp [SingleFdSignalQueue.signal_used_queue, Nat.testBit_or, Nat.testBit_one_zero]
  · simp [SingleFdSignalQueue.signal_used_queue, Nat.testBit_or, Nat.testBit_one_zero]

/-- C9: a successful `register_mmio_device` appends exactly one fragment of
the bit-exact form `virtio_mmio.device=<size/1024>K@0x<base hex>:<gsi>` to
the boot command line; for base `0x1_0000_0000`, size `0x1000`, interrupt
line 5 the fragment is `virtio_mmio.device=4K@0x100000000:5`. -/
theorem C9_cmdline_fragment (env : Env) (dev : Nat) (env' : Env)
    (hok : Env.register_mmio_device env dev = (.ok (), env')) :
    env'.kernel_cmdline.content =
      (if env.kernel_cmdline.content.isEmpty then
        virtioMmioFragment env.mmio_cfg.range.size env.mmio_cfg.range.base
          env.mmio_cfg.gsi
      else
        env.kernel_cmdline.content ++ " " ++
          virtioMmioFragment env.mmio_cfg.range.size env.mmio_cfg.range.base
            env.mmio_cfg.gsi) ∧
    virtioMmioFragment 0x1000 0x100000000 5 = "virtio_mmio.device=4K@0x100000000:5" := by
  refine ⟨?_, by decide⟩
  unfold Env.register_mmio_device at hok
  cases hbus : env.mmio_mgr.register_mmio env.mmio_cfg.range dev with
  | error e =>
    rw [hbus] at hok
    exact absurd (congrArg Prod.fst hok) (fun hcontra => Except.noConfusion hcontra)
  | ok mgr1 =>
    rw [hbus] at hok
    simp only [] at hok
    unfold Cmdline.add_virtio_mmio_device at hok
    cases hsz : decide (env.mmio_cfg.range.size = 0) with
    | true =>
      rw [if_pos (of_decide_eq_true hsz)] at hok
      exact absurd (congrArg Prod.fst hok) (fun hcontra => Except.noConfusion hcontra)
    | false =>
      rw [if_neg (of_decide_eq_false hsz)] at hok
      unfold Cmdline.insert_str at hok
      by_cases hcap : env.kernel_cmdline.capacity <
          (if env.kernel_cmdline.content.isEmpty then
            virtioMmioFragment env.mmio_cfg.range.size env.mmio_cfg.range.base
              env.mmio_cfg.gsi
          else
            env.kernel_cmdline.content ++ " " ++
              virtioMmioFragment env.mmio_cfg.range.size env.mmio_cfg.range.base
                env.mmio_cfg.gsi).length
      · rw [if_pos hcap] at hok
        exact absurd (congrArg Prod.fst hok) (fun hcontra => Except.noConfusion hcontra)
      · rw [if_neg hcap] at hok
        have henv : (Env.mk mgr1 env.mmio_cfg
            (Cmdline.mk
              (if env.kernel_cmdline.content.isEmpty then
                virtioMmioFragment env.mmio_cfg.range.size env.mmio_cfg.range.base
                  env.mmio_cfg.gsi
              else
                env.kernel_cmdline.content ++ " " ++
                  virtioMmioFragment env.mmio_cfg.range.size env.mmio_cfg.range.base
                    env.mmio_cfg.gsi)
              env.kernel_cmdline.capacity)) = env' := by
          have := congrArg Prod.snd hok
          simpa using this
        rw [← henv]

/-- C9 witness: the claim instantiated on a concrete environment; the
resulting command line is exactly the expected fragment. -/
theorem C9_witness :
    Env.register_mmio_device env9 3 = (.ok (), env9Out) ∧
    (env9Out.kernel_cmdline.content =
      (if env9.kernel_cmdline.content.isEmpty then
        virtioMmioFragment env9.mmio_cfg.range.size env9.mmio_cfg.range.base
          env9.mmio_cfg.gsi
      else
        env9.kernel_cmdline.content ++ " " ++
          virtioMmioFragment env9.mmio_cfg.range.size env9.mmio_cfg.range.base
            env9.mmio_cfg.gsi) ∧
    virtioMmioFragment 0x1000 0x100000000 5 = "virtio_mmio.device=4K@0x100000000:5") :=
  ⟨rfl, C9_cmdline_fragment env9 3 env9Out rfl⟩


/-- C10: for every prior value of the interrupt-status register,
`signal_used_queue` leaves bits 1 through 7 unchanged: the OR with `0x01` can
only set bit 0. -/
theorem C10_high_bits_preserved (q : SingleFdSignalQueue) (i k : Nat)
    (h1 : 1 ≤ k) (h7 : k ≤ 7) :
    Nat.testBit (q.signal_used_queue i).interrupt_status k =
      Nat.testBit q.interrupt_status k := by
  have hone : Nat.testBit 1 k = false := by
    refine Nat.testBit_lt_two_pow ?_
    calc 1 < 2 ^ 1 := by norm_num
      _ ≤ 2 ^ k := Nat.pow_le_pow_right (by norm_num) h1
  simp [SingleFdSignalQueue.signal_used_queue, Nat.testBit_or, hone]

/-- C10 witness: the claim instantiated at register value `0xAA` and bit 3. -/
theorem C10_witness :
    (1 ≤ 3 ∧ 3 ≤ 7) ∧
    Nat.testBit ((SingleFdSignalQueue.mk 0xAA 0).signal_used_queue 2).interrupt_status 3 =
      Nat.testBit (SingleFdSignalQueue.mk 0xAA 0).interrupt_status 3 :=
  ⟨⟨by decide, by decide⟩,
   C10_high_bits_preserved (SingleFdSignalQueue.mk 0xAA 0) 2 3 (by decide) (by decide)⟩
